import Mathlib

/-!
Verification of the `darkmode` crate (src/src/lib.rs): a shallow embedding
of its data model and operations, with theorems about dark-mode detection
and subscription behaviour.

The crate talks to the XDG Desktop Portal Settings service over D-Bus.  We
model the remote service abstractly: each fallible D-Bus operation the code
performs is a field of a `Service` (respectively `SubscribeEnv`) record
holding the outcome that operation would produce, and the Rust functions
become pure Lean functions over those records.  Machine integers (`u32`,
`u64`) are modelled as `Nat` with explicit bounds where overflow matters.
-/

/-- A D-Bus level error (`dbus::Error`).  Only its identity matters to the
control flow, so we model it as a tagged value. -/
structure DBusError where
  code : Nat
deriving DecidableEq, Repr

/-- The crate's opaque error type `Error(Box<dyn std::error::Error>)`.
Every error `detect`/`subscribe` produce arises from a `dbus::Error` via
`From<dbus::Error>`, which we keep explicit as a constructor. -/
inductive Error where
  | dbus (e : DBusError)
deriving DecidableEq, Repr

/-- `Mode` from lib.rs: `Default`, `Dark`, `Light` (in that declaration
order, `#[repr(u32)]`, `Default` being the `#[default]`). -/
inductive Mode where
  | Default
  | Dark
  | Light
deriving DecidableEq, Repr

/-- `dbus::arg::Variant<T>`: a self-describing wire value wrapping a `T`.
Field `0` in Rust; named `val` here. -/
structure Variant (α : Type) where
  val : α
deriving DecidableEq, Repr

/-- `mode_from_u32` from lib.rs: `1 => Dark, 2 => Light, _ => Default`.
The Rust match is over `u32`; the same equations define it on all of
`Nat`. -/
def mode_from_u32 (mode : Nat) : Mode :=
  match mode with
  | 1 => Mode.Dark
  | 2 => Mode.Light
  | _ => Mode.Default

/-- `NAMESPACE` constant from lib.rs. -/
def NAMESPACE : String := "org.freedesktop.appearance"

/-- `COLOR_SCHEME` constant from lib.rs. -/
def COLOR_SCHEME : String := "color-scheme"

instance {ε α : Type} [DecidableEq ε] [DecidableEq α] : DecidableEq (Except ε α) := fun
  | .ok a, .ok b =>
    if h : a = b then .isTrue (by rw [h]) else .isFalse (by intro hh; cases hh; exact h rfl)
  | .ok _, .error _ => .isFalse (by intro hh; cases hh)
  | .error _, .ok _ => .isFalse (by intro hh; cases hh)
  | .error a, .error b =>
    if h : a = b then .isTrue (by rw [h]) else .isFalse (by intro hh; cases hh; exact h rfl)

/-- The remote settings service as seen through one proxy, i.e. the
outcomes of each D-Bus operation `detect` may perform:
`connection` is the result of `Connection::new_session()` inside `proxy()`;
`readOne` the modern `ReadOne` method call returning `(Variant<u32>,)`;
`version` the `Properties::get::<u32>("…Settings", "version")` lookup;
`readLegacy` the legacy `Read` call returning `(Variant<Variant<u32>>,)`. -/
structure Service where
  connection : Except DBusError Unit
  readOne : Except DBusError (Variant Nat)
  version : Except DBusError Nat
  readLegacy : Except DBusError (Variant (Variant Nat))
deriving DecidableEq, Repr

/-- `detect` from lib.rs.  `proxy()?` first; then the modern `ReadOne`
call; on its failure the match guard `proxy.get::<u32>(…,"version")? < 2`
runs: the `?` inside the guard propagates a failed version lookup out of
`detect`; a version `< 2` selects the legacy arm (`Read`, double
unwrap `.0.0.0`, decode); otherwise the `Err(e) => Err(e.into())` arm
returns the original `ReadOne` error. -/
def detect (s : Service) : Except Error Mode := do
  let _ ← s.connection.mapError Error.dbus
  match s.readOne with
  | .ok v => pure (mode_from_u32 v.val)
  | .error e =>
    match s.version with
    | .error e2 => throw (Error.dbus e2)
    | .ok ver =>
      if ver < 2 then
        match s.readLegacy with
        | .ok vv => pure (mode_from_u32 vv.val.val)
        | .error e3 => throw (Error.dbus e3)
      else
        throw (Error.dbus e)

/-- The `Duration::from_millis(100)` per-call timeout `proxy()` configures
on the proxy. -/
def proxyTimeoutMillis : Nat := 100

/-- `u64 as u32` via `value.try_into().unwrap_or_default()` in the signal
handler: the `TryInto` conversion fails for values above `u32::MAX`, and
`unwrap_or_default()` then substitutes `u32::default() = 0`. -/
def u64_try_into_u32_or_default (v : Nat) : Nat :=
  if v < 2 ^ 32 then v else 0

/-- The dynamically typed wire value `Variant<Box<dyn RefArg>>` carried by
a `SettingChanged` signal, reduced to the one capability the handler
probes: `RefArg::as_u64`, which yields a `u64` when the value is an
unsigned integer and `None` otherwise. -/
structure DynValue where
  asU64 : Option Nat
deriving DecidableEq, Repr

/-- The `SettingChanged` signal payload from lib.rs: namespace string, key
string, dynamically typed value.  (`namespace` is a Lean keyword, hence
`nspace`.) -/
structure SettingChanged where
  nspace : String
  key : String
  value : DynValue
deriving DecidableEq, Repr

/-- The `match_signal` closure body from `subscribe`: if the namespace and
key equal the fixed constants, and `value.0.as_u64()` yields an unsigned
integer, decode `mode_from_u32(value.try_into().unwrap_or_default())` and
invoke the callback with it; otherwise do nothing.  `some m` means the
callback is invoked with `m`; `none` means the signal is ignored. -/
def handleSignal (sig : SettingChanged) : Option Mode :=
  if sig.nspace = NAMESPACE ∧ sig.key = COLOR_SCHEME then
    match sig.value.asU64 with
    | some v => some (mode_from_u32 (u64_try_into_u32_or_default v))
    | none => none
  else
    none

/-- One iteration of the background loop is a call
`proxy.connection.process(Duration::from_secs(1))`: it either fails with a
D-Bus error, or succeeds after dispatching a batch of received
`SettingChanged` signals (in receipt order) to the registered handler. -/
abbrev LoopIteration : Type := Except DBusError (List SettingChanged)

/-- The background loop of `subscribe`
(`loop { _ = proxy.connection.process(…); }`) over a finite prefix of its
iterations: each iteration's `Result` is discarded with `_ =` and the loop
unconditionally continues, so a failed iteration delivers nothing and a
successful one delivers the handler's output for each matching signal of
its batch, in order. -/
def processIterations (iters : List LoopIteration) : List Mode :=
  match iters with
  | [] => []
  | .error _ :: rest => processIterations rest
  | .ok sigs :: rest => sigs.filterMap handleSignal ++ processIterations rest

/-- The `SettingChanged` signals actually received on the bus across a
finite prefix of loop iterations (a failed `process` call dispatches no
signals), in receipt order. -/
def dispatchedSignals (iters : List LoopIteration) : List SettingChanged :=
  match iters with
  | [] => []
  | .error _ :: rest => dispatchedSignals rest
  | .ok sigs :: rest => sigs ++ dispatchedSignals rest

/-- The world `subscribe` runs against: the service as seen by the
`detect()` call it performs first (which opens its own connection), the
outcome of the second `proxy()` call, the outcome of `match_signal`
registration, and the iterations of the spawned background loop. -/
structure SubscribeEnv where
  detectService : Service
  connection2 : Except DBusError Unit
  matchSignal : Except DBusError Unit
  iterations : List LoopIteration

/-- Observable outcome of `subscribe`:
`fail_before_callback e` — `detect()?` failed, the callback was never
invoked, no signal match was registered and no thread spawned;
`fail_after_callback m e` — the callback received the initial value `m`,
then the second `proxy()?` or `match_signal(…)?` failed, so no thread was
spawned; `ok m delivered` — `subscribe` returned `Ok(())` after delivering
`m`, and the background loop then delivers `delivered`. -/
inductive SubscribeResult where
  | fail_before_callback (e : Error)
  | fail_after_callback (initial : Mode) (e : Error)
  | ok (initial : Mode) (delivered : List Mode)
deriving DecidableEq, Repr

/-- `subscribe` from lib.rs: `call_back(detect()?);` then
`let proxy = proxy()?;` then `proxy.match_signal(…)?;` then spawn the
background loop and return `Ok(())`. -/
def subscribe (env : SubscribeEnv) : SubscribeResult :=
  match detect env.detectService with
  | .error e => .fail_before_callback e
  | .ok m =>
    match env.connection2 with
    | .error e => .fail_after_callback m (Error.dbus e)
    | .ok _ =>
      match env.matchSignal with
      | .error e => .fail_after_callback m (Error.dbus e)
      | .ok _ => .ok m (processIterations env.iterations)

/-- The full sequence of callback invocations a `subscribe` run produces,
in order. -/
def callbackTrace (r : SubscribeResult) : List Mode :=
  match r with
  | .fail_before_callback _ => []
  | .fail_after_callback m _ => [m]
  | .ok m delivered => m :: delivered

/-- The number of IPC round trips (method calls / property gets on the
proxy) `detect` performs, following its control flow: the `ReadOne` call,
then on its failure the `version` property get, then on `version < 2` the
legacy `Read` call. -/
def detectRoundTrips (s : Service) : Nat :=
  match s.connection with
  | .error _ => 0
  | .ok _ =>
    match s.readOne with
    | .ok _ => 1
    | .error _ =>
      match s.version with
      | .error _ => 2
      | .ok ver => if ver < 2 then 3 else 2

/-- A service whose modern `ReadOne` call fails with error 10 and whose
`version` property lookup fails with error 20. -/
def c1Service : Service :=
  { connection := .ok (), readOne := .error ⟨10⟩, version := .error ⟨20⟩,
    readLegacy := .ok ⟨⟨1⟩⟩ }

/-- A service whose modern call fails, whose version is 1, and whose
legacy call returns the double-wrapped value 2. -/
def c3Service : Service :=
  { connection := .ok (), readOne := .error ⟨10⟩, version := .ok 1,
    readLegacy := .ok ⟨⟨2⟩⟩ }

/-- An environment whose initial `detect` fails at the modern call with a
version of 2 (so the original error 7 is propagated). -/
def c4Env : SubscribeEnv :=
  { detectService :=
      { connection := .ok (), readOne := .error ⟨7⟩, version := .ok 2,
        readLegacy := .ok ⟨⟨1⟩⟩ },
    connection2 := .ok (), matchSignal := .ok (), iterations := [] }

/-- A signal with the matching namespace and key carrying the unsigned
integer 2. -/
def lightSignal : SettingChanged :=
  { nspace := "org.freedesktop.appearance", key := "color-scheme",
    value := { asU64 := some 2 } }

/-- A full subscribe environment: initial value `Dark`, then a matching
`Light` signal, a failed iteration, a non-matching signal, and two
identical consecutive matching `Dark` signals. -/
def c6Env : SubscribeEnv :=
  { detectService :=
      { connection := .ok (), readOne := .ok ⟨1⟩, version := .ok 2,
        readLegacy := .ok ⟨⟨0⟩⟩ },
    connection2 := .ok (), matchSignal := .ok (),
    iterations :=
      [.ok [lightSignal],
       .error ⟨5⟩,
       .ok [{ nspace := "org.gnome.desktop", key := "color-scheme",
              value := { asU64 := some 2 } },
            { nspace := "org.freedesktop.appearance", key := "color-scheme",
              value := { asU64 := some 1 } },
            { nspace := "org.freedesktop.appearance", key := "color-scheme",
              value := { asU64 := some 1 } }]] }

/-- A failing service on the fallback path used for C7: modern call fails
with error 1, version is 1, the legacy call fails with error 3. -/
def c7Service : Service :=
  { connection := .ok (), readOne := .error ⟨1⟩, version := .ok 1,
    readLegacy := .error ⟨3⟩ }

/-- A service on the fallback path: modern call fails, version is 1,
legacy call succeeds. -/
def c9Service : Service :=
  { connection := .ok (), readOne := .error ⟨1⟩, version := .ok 1,
    readLegacy := .ok ⟨⟨1⟩⟩ }

/-- A matching signal whose value extracts as the unsigned integer
`u32::MAX + 1`. -/
def hugeSignal : SettingChanged :=
  { nspace := "org.freedesktop.appearance", key := "color-scheme",
    value := { asU64 := some 4294967296 } }

/-- Reduction of `Except` bind on a success. -/
@[simp]
theorem except_ok_bind {ε α β : Type} (a : α) (f : α → Except ε β) :
    (Except.ok a >>= f : Except ε β) = f a := rfl

/-- Reduction of `Except` bind on an error. -/
@[simp]
theorem except_error_bind {ε α β : Type} (e : ε) (f : α → Except ε β) :
    (Except.error e >>= f : Except ε β) = Except.error e := rfl

/-- `throw` on `Except` is `Except.error`. -/
@[simp]
theorem except_throw_eq {ε α : Type} (e : ε) :
    (throw e : Except ε α) = Except.error e := rfl

/-- `pure` on `Except` is `Except.ok`. -/
@[simp]
theorem except_pure_eq {ε α : Type} (a : α) :
    (pure a : Except ε α) = Except.ok a := rfl

/-- C2: the decoder is a total function on unsigned integers (its Lean type
`Nat → Mode` has no failure path) with the exact mapping `1 ↦ Dark`,
`2 ↦ Light`, and `Default` for every other value, including `0` and
arbitrarily large values. -/
theorem mode_from_u32_exact_mapping :
    mode_from_u32 1 = Mode.Dark ∧ mode_from_u32 2 = Mode.Light ∧
    mode_from_u32 0 = Mode.Default ∧
    ∀ n : Nat, n ≠ 1 → n ≠ 2 → mode_from_u32 n = Mode.Default := by
  refine ⟨rfl, rfl, rfl, fun n h1 h2 => ?_⟩
  match n, h1, h2 with
  | 0, _, _ => rfl
  | 1, h1, _ => exact absurd rfl h1
  | 2, _, h2 => exact absurd rfl h2
  | k + 3, _, _ => rfl

/-- Witness for C2 at the concrete input 4294967296. -/
theorem mode_from_u32_exact_mapping_witness :
    mode_from_u32 4294967296 = Mode.Default :=
  mode_from_u32_exact_mapping.2.2.2 4294967296 (by decide) (by decide)

/-- C1 counterexample: when the modern call fails with error 10 and the
version lookup fails with error 20, `detect` returns the version-lookup
error 20, not the original error 10 (the `?` inside the match guard
propagates the lookup's own error). -/
theorem detect_version_lookup_error_propagates :
    detect c1Service = .error (Error.dbus ⟨20⟩) ∧
    detect c1Service ≠ .error (Error.dbus ⟨10⟩) := by
  decide

/-- C1 (amended): when the modern `ReadOne` call fails, a failed version
property lookup makes `detect` return the version-lookup error, while a
looked-up version ≥ 2 makes `detect` return the original error of the
failed modern call (no legacy-path result in either case). -/
theorem detect_modern_failure_disambiguation (s : Service) (e : DBusError)
    (hc : s.connection = .ok ()) (hr : s.readOne = .error e) :
    (∀ e2, s.version = .error e2 → detect s = .error (Error.dbus e2)) ∧
    (∀ v, s.version = .ok v → 2 ≤ v → detect s = .error (Error.dbus e)) := by
  constructor
  · intro e2 hv
    simp [detect, hc, hr, hv, Except.mapError]
  · intro v hv hge
    simp [detect, hc, hr, hv, Except.mapError, Nat.not_lt.mpr hge]

/-- Witness for the amended C1 at a concrete service. -/
theorem detect_modern_failure_disambiguation_witness :
    detect c1Service = .error (Error.dbus ⟨20⟩) :=
  (detect_modern_failure_disambiguation c1Service ⟨10⟩ rfl rfl).1 ⟨20⟩ rfl

/-- C3: whenever the modern `ReadOne` call fails, the version property
reads as a value `< 2`, and the legacy `Read` call returns the
double-wrapped variant of `x`, `detect` unwraps both layers, decodes `x`,
and returns that `Mode` rather than an error. -/
theorem detect_legacy_fallback (s : Service) (e : DBusError) (v x : Nat)
    (hc : s.connection = .ok ()) (hr : s.readOne = .error e)
    (hv : s.version = .ok v) (hlt : v < 2) (hl : s.readLegacy = .ok ⟨⟨x⟩⟩) :
    detect s = .ok (mode_from_u32 x) := by
  simp [detect, hc, hr, hv, hl, hlt, Except.mapError]

/-- Witness for C3: the double-wrapped value 2 decodes to `Light`. -/
theorem detect_legacy_fallback_witness :
    detect c3Service = .ok Mode.Light :=
  detect_legacy_fallback c3Service ⟨10⟩ 1 2 rfl rfl rfl (by decide) rfl

/-- C4: `subscribe` first performs an equivalent `detect()` call and
invokes the callback with its result before any subscription exists: if
that initial read fails, `subscribe` returns exactly that error, the
callback is never invoked, and no signal subscription or background worker
is created (`fail_before_callback`); if it succeeds with `m`, the very
first callback invocation of the whole run is `m`. -/
theorem subscribe_initial_callback (env : SubscribeEnv) :
    (∀ e, detect env.detectService = .error e →
      subscribe env = .fail_before_callback e ∧
      callbackTrace (subscribe env) = []) ∧
    (∀ m, detect env.detectService = .ok m →
      (callbackTrace (subscribe env)).head? = some m) := by
  constructor
  · intro e he
    simp [subscribe, he, callbackTrace]
  · intro m hm
    cases hc2 : env.connection2 with
    | error e2 => simp [subscribe, hm, hc2, callbackTrace]
    | ok u =>
      cases hms : env.matchSignal with
      | error e3 => simp [subscribe, hm, hc2, hms, callbackTrace]
      | ok u2 => simp [subscribe, hm, hc2, hms, callbackTrace]

/-- Witness for C4: a failing initial read makes `subscribe` fail before
any callback invocation or subscription. -/
theorem subscribe_initial_callback_witness :
    subscribe c4Env = .fail_before_callback (Error.dbus ⟨7⟩) ∧
    callbackTrace (subscribe c4Env) = [] :=
  (subscribe_initial_callback c4Env).1 (Error.dbus ⟨7⟩) rfl

/-- C5: the `match_signal` handler invokes the callback exactly when the
signal's namespace is `"org.freedesktop.appearance"`, its key is
`"color-scheme"`, and its dynamic value extracts as an unsigned integer;
every other signal is ignored (`none`), and every `Mode` it delivers is
the decoder applied to a successfully extracted unsigned integer. -/
theorem handleSignal_filters_and_decodes (sig : SettingChanged) :
    ((∃ m, handleSignal sig = some m) ↔
      sig.nspace = NAMESPACE ∧ sig.key = COLOR_SCHEME ∧
      ∃ v, sig.value.asU64 = some v) ∧
    (∀ m, handleSignal sig = some m →
      ∃ v, sig.value.asU64 = some v ∧
        m = mode_from_u32 (u64_try_into_u32_or_default v)) := by
  by_cases h : sig.nspace = NAMESPACE ∧ sig.key = COLOR_SCHEME
  · obtain ⟨h1, h2⟩ := h
    cases hv : sig.value.asU64 with
    | none => simp [handleSignal, h1, h2, hv]
    | some v =>
      constructor
      · simp [handleSignal, h1, h2, hv]
      · intro m hm
        simp [handleSignal, h1, h2, hv] at hm
        exact ⟨v, rfl, hm.symm⟩
  · constructor
    · simp [handleSignal, h]
      intro h1 h2
      exact absurd ⟨h1, h2⟩ h
    · intro m hm
      simp [handleSignal, h] at hm

/-- Witness for C5: the matching signal carrying 2 is delivered, decoded
from its extracted unsigned integer. -/
theorem handleSignal_filters_and_decodes_witness :
    ∃ v, lightSignal.value.asU64 = some v ∧
      Mode.Light = mode_from_u32 (u64_try_into_u32_or_default v) :=
  (handleSignal_filters_and_decodes lightSignal).2 Mode.Light (by decide)

/-- The modes the background loop delivers are exactly the handler's
output on the signals received on the bus, in receipt order. -/
theorem processIterations_eq_filterMap (iters : List LoopIteration) :
    processIterations iters = (dispatchedSignals iters).filterMap handleSignal := by
  induction iters with
  | nil => rfl
  | cons it rest ih =>
    cases it with
    | error e => simpa [processIterations, dispatchedSignals] using ih
    | ok sigs => simp [processIterations, dispatchedSignals, ih]

/-- C6: on a successful `subscribe` run, the callback trace is exactly the
initial `detect` value followed by one decoded invocation per matching
signal, in the order the signals were received on the bus — the initial
value comes strictly first, and `List.filterMap` neither reorders,
coalesces nor deduplicates. -/
theorem subscribe_callback_order (env : SubscribeEnv) (m : Mode)
    (hd : detect env.detectService = .ok m)
    (hc : env.connection2 = .ok ()) (hm : env.matchSignal = .ok ()) :
    callbackTrace (subscribe env) =
      m :: (dispatchedSignals env.iterations).filterMap handleSignal := by
  simp [subscribe, hd, hc, hm, callbackTrace, processIterations_eq_filterMap]

/-- Witness for C6: the concrete trace is the initial `Dark`, then `Light`,
then the two duplicate `Dark` deliveries in order; the non-matching signal
is skipped. -/
theorem subscribe_callback_order_witness :
    callbackTrace (subscribe c6Env) =
      [Mode.Dark, Mode.Light, Mode.Dark, Mode.Dark] :=
  (subscribe_callback_order c6Env Mode.Dark rfl rfl rfl).trans (by decide)

/-- C7: `detect` never converts a failure into a `Mode`: every `Ok` result
comes from a successful modern read or a successful legacy fallback read
(never from an error), and every failure surfaces as an `Error` wrapping
one of the underlying D-Bus errors. -/
theorem detect_never_masks_errors (s : Service) :
    (∀ m, detect s = .ok m →
      (∃ c, s.readOne = .ok ⟨c⟩ ∧ m = mode_from_u32 c) ∨
      (∃ v x, s.version = .ok v ∧ v < 2 ∧ s.readLegacy = .ok ⟨⟨x⟩⟩ ∧
        m = mode_from_u32 x)) ∧
    (∀ err, detect s = .error err → ∃ e, err = Error.dbus e ∧
      (s.connection = .error e ∨ s.readOne = .error e ∨
       s.version = .error e ∨ s.readLegacy = .error e)) := by
  obtain ⟨conn, ro, ver, rl⟩ := s
  cases conn with
  | error ec =>
    constructor
    · intro m hm
      simp [detect, Except.mapError] at hm
    · intro err herr
      simp [detect, Except.mapError] at herr
      exact ⟨ec, herr.symm, Or.inl rfl⟩
  | ok u =>
    cases ro with
    | ok w =>
      constructor
      · intro m hm
        simp [detect, Except.mapError] at hm
        exact Or.inl ⟨w.val, rfl, hm.symm⟩
      · intro err herr
        simp [detect, Except.mapError] at herr
    | error e =>
      cases ver with
      | error e2 =>
        constructor
        · intro m hm
          simp [detect, Except.mapError] at hm
        · intro err herr
          simp [detect, Except.mapError] at herr
          exact ⟨e2, herr.symm, Or.inr (Or.inr (Or.inl rfl))⟩
      | ok v =>
        by_cases hv : v < 2
        · cases rl with
          | ok vv =>
            constructor
            · intro m hm
              simp [detect, Except.mapError, hv] at hm
              exact Or.inr ⟨v, vv.val.val, rfl, hv, rfl, hm.symm⟩
            · intro err herr
              simp [detect, Except.mapError, hv] at herr
          | error e3 =>
            constructor
            · intro m hm
              simp [detect, Except.mapError, hv] at hm
            · intro err herr
              simp [detect, Except.mapError, hv] at herr
              exact ⟨e3, herr.symm, Or.inr (Or.inr (Or.inr rfl))⟩
        · constructor
          · intro m hm
            simp [detect, Except.mapError, hv] at hm
          · intro err herr
            simp [detect, Except.mapError, hv] at herr
            exact ⟨e, herr.symm, Or.inr (Or.inl rfl)⟩

/-- Witness for C7 at a concrete service on the failing fallback path: the
error wraps the underlying legacy-read error. -/
theorem detect_never_masks_errors_witness :
    ∃ e, Error.dbus ⟨3⟩ = Error.dbus e ∧
      (c7Service.connection = .error e ∨
       c7Service.readOne = .error e ∨
       c7Service.version = .error e ∨
       c7Service.readLegacy = .error e) :=
  (detect_never_masks_errors c7Service).2
    (Error.dbus ⟨3⟩) rfl

/-- C8: the background loop survives a failed processing iteration: the
failed iteration's result is discarded, it contributes no deliveries, and
the loop goes on to process every later iteration unchanged, so matching
signals after the failure still reach the callback. -/
theorem loop_survives_failed_iteration (pre post : List LoopIteration)
    (e : DBusError) :
    processIterations (pre ++ Except.error e :: post) =
      processIterations pre ++ processIterations post := by
  induction pre with
  | nil => simp [processIterations]
  | cons it rest ih =>
    cases it with
    | error e2 => simpa [processIterations] using ih
    | ok sigs => simp [processIterations, ih]

/-- C9 counterexample: on the fallback path `detect` performs three IPC
round trips — the failed `ReadOne`, the `version` property get, and the
legacy `Read` — exceeding the claimed bound of two. -/
theorem detect_fallback_three_round_trips :
    detectRoundTrips c9Service = 3 ∧ ¬ detectRoundTrips c9Service ≤ 2 := by
  decide

/-- C9 (amended): the proxy is configured with the 100 ms per-call
timeout, and `detect` performs at most three IPC round trips in total
(exactly three on the fallback path: failed `ReadOne`, `version` get,
legacy `Read`). -/
theorem detect_round_trips_bounded (s : Service) :
    proxyTimeoutMillis = 100 ∧ detectRoundTrips s ≤ 3 := by
  refine ⟨rfl, ?_⟩
  obtain ⟨conn, ro, ver, rl⟩ := s
  cases conn with
  | error e => simp [detectRoundTrips]
  | ok u =>
    cases ro with
    | ok w => simp [detectRoundTrips]
    | error e =>
      cases ver with
      | error e2 => simp [detectRoundTrips]
      | ok v =>
        by_cases hv : v < 2 <;> simp [detectRoundTrips, hv]

/-- C10: a matching signal whose extracted unsigned integer exceeds
`u32::MAX` still reaches the callback, which receives `Mode.Default`: the
failed `u64` to `u32` conversion is replaced by `unwrap_or_default()` with
0 before decoding. -/
theorem handleSignal_overflow_delivers_default (sig : SettingChanged) (v : Nat)
    (hn : sig.nspace = NAMESPACE) (hk : sig.key = COLOR_SCHEME)
    (hv : sig.value.asU64 = some v) (hbig : 2 ^ 32 ≤ v) (_hu64 : v < 2 ^ 64) :
    handleSignal sig = some Mode.Default := by
  have h0 : u64_try_into_u32_or_default v = 0 := by
    unfold u64_try_into_u32_or_default
    rw [if_neg (Nat.not_lt.mpr hbig)]
  simp [handleSignal, hn, hk, hv, h0, mode_from_u32]

/-- Witness for C10 at the concrete value 4294967296. -/
theorem handleSignal_overflow_delivers_default_witness :
    handleSignal hugeSignal = some Mode.Default :=
  handleSignal_overflow_delivers_default hugeSignal 4294967296 rfl rfl rfl
    (by decide) (by decide)
